import Mathlib

/-!
Verification of the provider-dispatch streaming client of the cosmic-glass
tutoring app, embedded shallowly from the TypeScript source
(`aiService.ts`: the helper `streamOpenAICompatResponse`, the `AiService`
methods `generateFlowchartResponse`, `generateStreamingResponse` and
`generateQuiz`).

The embedding models:
  * the JSON values produced by the runtime `JSON.parse` (`JVal`, `jsonParse`);
  * the OpenAI-compatible SSE line decoder with its carry-over buffer
    (`splitLines`, `processLine`, `runLines`, `compatLoop`);
  * the Google-variant chunk decoder (`googleLoop`);
  * request construction and routing of both dispatch methods
    (`generateStreamingDispatch`, `generateFlowchartDispatch`);
  * the quiz-response normalizer and answer-index resolver
    (`extractQuestionsArray`, `resolveCorrectIndex`, `parseQuizResponse`).
-/

/-- Left brace character, written by code point to keep string handling uniform. -/
def braceOpen : Char := Char.ofNat 123

/-- Right brace character, written by code point to keep string handling uniform. -/
def braceClose : Char := Char.ofNat 125

/-- JSON values as produced by the runtime `JSON.parse` call in the source.
Numbers are modelled by their integer part only (no claim in this development
involves fractional numeric payloads); object fields keep source order, and a
duplicate key is resolved to its last occurrence on lookup, matching the
JavaScript parser. -/
inductive JVal where
  | null
  | bool (b : Bool)
  | num (n : Int)
  | str (s : String)
  | arr (elems : List JVal)
  | obj (fields : List (String × JVal))

/-- JSON whitespace characters accepted between tokens by `JSON.parse`. -/
def isJsonWs (c : Char) : Bool :=
  c = ' ' || c = '\t' || c = '\n' || c = '\r'

/-- Drop leading JSON whitespace. -/
def skipWs : List Char → List Char
  | [] => []
  | c :: cs => if isJsonWs c then skipWs cs else c :: cs

/-- Value of one hexadecimal digit, used for string escapes. -/
def hexVal (c : Char) : Option Nat :=
  if '0' ≤ c ∧ c ≤ '9' then some (c.toNat - 48)
  else if 'a' ≤ c ∧ c ≤ 'f' then some (c.toNat - 87)
  else if 'A' ≤ c ∧ c ≤ 'F' then some (c.toNat - 55)
  else none

/-- Body of a JSON string after the opening quote: collects characters until
the closing quote, decoding the escape sequences `JSON.parse` accepts. -/
def parseStringBody : Nat → List Char → List Char → Option (String × List Char)
  | 0, _, _ => none
  | Nat.succ _, _, [] => none
  | Nat.succ fuel, acc, c :: cs =>
    if c = '"' then some (String.mk acc.reverse, cs)
    else if c = '\\' then
      match cs with
      | [] => none
      | e :: cs2 =>
        if e = '"' then parseStringBody fuel ('"' :: acc) cs2
        else if e = '\\' then parseStringBody fuel ('\\' :: acc) cs2
        else if e = '/' then parseStringBody fuel ('/' :: acc) cs2
        else if e = 'n' then parseStringBody fuel ('\n' :: acc) cs2
        else if e = 't' then parseStringBody fuel ('\t' :: acc) cs2
        else if e = 'r' then parseStringBody fuel ('\r' :: acc) cs2
        else if e = 'b' then parseStringBody fuel (Char.ofNat 8 :: acc) cs2
        else if e = 'f' then parseStringBody fuel (Char.ofNat 12 :: acc) cs2
        else if e = 'u' then
          match cs2 with
          | h1 :: h2 :: h3 :: h4 :: cs3 =>
            match hexVal h1, hexVal h2, hexVal h3, hexVal h4 with
            | some a, some b, some c2, some d =>
              parseStringBody fuel (Char.ofNat (((a * 16 + b) * 16 + c2) * 16 + d) :: acc) cs3
            | _, _, _, _ => none
          | _ => none
        else none
    else parseStringBody fuel (c :: acc) cs

/-- Take a maximal run of decimal digits. -/
def takeDigits : List Char → List Char × List Char
  | [] => ([], [])
  | c :: cs =>
    if c.isDigit then
      let r := takeDigits cs
      (c :: r.1, r.2)
    else ([], c :: cs)

/-- Numeric value of a digit run. -/
def digitsVal (ds : List Char) : Nat :=
  ds.foldl (fun a c => a * 10 + (c.toNat - 48)) 0

/-- Exponent digits of a JSON number; the exponent is validated but, like the
fraction, does not change the modelled integer value. -/
def parseExpDigits (n : Int) (input : List Char) : Option (JVal × List Char) :=
  let rest := match input with
    | '+' :: cs => cs
    | '-' :: cs => cs
    | _ => input
  let r := takeDigits rest
  if r.1 = [] then none else some (JVal.num n, r.2)

/-- Optional exponent part of a JSON number. -/
def parseExpPart (n : Int) (input : List Char) : Option (JVal × List Char) :=
  match input with
  | 'e' :: cs => parseExpDigits n cs
  | 'E' :: cs => parseExpDigits n cs
  | _ => some (JVal.num n, input)

/-- JSON number: optional minus, integer part without redundant leading zero,
optional fraction and exponent (validated, value kept to the integer part). -/
def parseNumber (input : List Char) : Option (JVal × List Char) :=
  let p := match input with
    | '-' :: cs => (true, cs)
    | _ => (false, input)
  let r := takeDigits p.2
  if r.1 = [] then none
  else if 1 < r.1.length ∧ r.1.head? = some '0' then none
  else
    let n0 : Int := Int.ofNat (digitsVal r.1)
    let n : Int := if p.1 then -n0 else n0
    match r.2 with
    | '.' :: cs =>
      let f := takeDigits cs
      if f.1 = [] then none else parseExpPart n f.2
    | _ => parseExpPart n r.2

/-- Expect the given literal characters at the head of the input. -/
def expectChars (lit : List Char) (input : List Char) : Option (List Char) :=
  match lit, input with
  | [], rest => some rest
  | l :: ls, c :: cs => if c = l then expectChars ls cs else none
  | _ :: _, [] => none

mutual

/-- Recursive-descent JSON value parser mirroring `JSON.parse`; the fuel
argument only bounds recursion depth and is chosen large enough in
`jsonParse` for any input of the given length. -/
def parseVal : Nat → List Char → Option (JVal × List Char)
  | 0, _ => none
  | Nat.succ fuel, input =>
    match skipWs input with
    | [] => none
    | c :: cs =>
      if c = braceOpen then parseObjStart fuel cs
      else if c = '[' then parseArrStart fuel cs
      else if c = '"' then
        match parseStringBody (cs.length + 1) [] cs with
        | some (s, rest) => some (JVal.str s, rest)
        | none => none
      else if c = 't' then
        match expectChars ['r', 'u', 'e'] cs with
        | some rest => some (JVal.bool true, rest)
        | none => none
      else if c = 'f' then
        match expectChars ['a', 'l', 's', 'e'] cs with
        | some rest => some (JVal.bool false, rest)
        | none => none
      else if c = 'n' then
        match expectChars ['u', 'l', 'l'] cs with
        | some rest => some (JVal.null, rest)
        | none => none
      else if c = '-' ∨ c.isDigit then parseNumber (c :: cs)
      else none

/-- Array body after the opening bracket. -/
def parseArrStart : Nat → List Char → Option (JVal × List Char)
  | 0, _ => none
  | Nat.succ fuel, input =>
    match skipWs input with
    | ']' :: cs => some (JVal.arr [], cs)
    | _ => parseArrElems fuel [] input

/-- Comma-separated array elements (accumulator reversed at the close). -/
def parseArrElems : Nat → List JVal → List Char → Option (JVal × List Char)
  | 0, _, _ => none
  | Nat.succ fuel, acc, input =>
    match parseVal fuel input with
    | none => none
    | some (v, rest) =>
      match skipWs rest with
      | ']' :: cs => some (JVal.arr (v :: acc).reverse, cs)
      | ',' :: cs => parseArrElems fuel (v :: acc) cs
      | _ => none

/-- Object body after the opening brace. -/
def parseObjStart : Nat → List Char → Option (JVal × List Char)
  | 0, _ => none
  | Nat.succ fuel, input =>
    match skipWs input with
    | c :: _ =>
      if c = braceClose then
        match skipWs input with
        | _ :: cs => some (JVal.obj [], cs)
        | [] => none
      else parseObjMembers fuel [] input
    | [] => none

/-- Comma-separated object members (accumulator reversed at the close). -/
def parseObjMembers : Nat → List (String × JVal) → List Char → Option (JVal × List Char)
  | 0, _, _ => none
  | Nat.succ fuel, acc, input =>
    match skipWs input with
    | '"' :: cs =>
      match parseStringBody (cs.length + 1) [] cs with
      | some (k, rest) =>
        match skipWs rest with
        | ':' :: cs2 =>
          match parseVal fuel cs2 with
          | some (v, rest2) =>
            match skipWs rest2 with
            | c :: cs3 =>
              if c = braceClose then some (JVal.obj ((k, v) :: acc).reverse, cs3)
              else if c = ',' then parseObjMembers fuel ((k, v) :: acc) cs3
              else none
            | [] => none
          | none => none
        | _ => none
      | none => none
    | _ => none

end

/-- Model of the runtime `JSON.parse(text)`: parse one value and require only
trailing whitespace after it, returning `none` where the runtime throws. -/
def jsonParse (input : List Char) : Option JVal :=
  match parseVal (2 * input.length + 4) input with
  | some (v, rest) => if skipWs rest = [] then some v else none
  | none => none

/-- Last-occurrence field lookup on a JSON object, `none` on any other value:
this is property access `v[k]` after `JSON.parse`, where a duplicate key has
been overwritten by its last occurrence and access on a non-object JSON
primitive or array yields `undefined`. -/
def jGet (v : JVal) (k : String) : Option JVal :=
  match v with
  | JVal.obj fs =>
    match fs.reverse.find? (fun p => p.1 == k) with
    | some p => some p.2
    | none => none
  | _ => none

/-- JavaScript truthiness of a JSON value, as used by `if (chunk)`,
`if (q.answer)` and the `||` defaults in the source. -/
def jTruthy : JVal → Bool
  | JVal.null => false
  | JVal.bool b => b
  | JVal.num n => n ≠ 0
  | JVal.str s => s ≠ ""
  | JVal.arr _ => true
  | JVal.obj _ => true

/-- The optional chain `json.choices?.[0]?.delta?.content` of
`streamOpenAICompatResponse`. -/
def extractContent (v : JVal) : Option JVal :=
  match jGet v "choices" with
  | some (JVal.arr (c :: _)) =>
    match jGet c "delta" with
    | some d => jGet d "content"
    | none => none
  | _ => none

/-- Whitespace removed by `String.prototype.trim` (the ASCII portion, which is
all that occurs in SSE payload lines). -/
def isJsWs (c : Char) : Bool :=
  c = ' ' || c = '\t' || c = '\n' || c = '\r' || c = Char.ofNat 11 || c = Char.ofNat 12

/-- Character-list version of `String.prototype.trim`. -/
def trimChars (cs : List Char) : List Char :=
  ((cs.dropWhile isJsWs).reverse.dropWhile isJsWs).reverse

/-- Outcome of one complete SSE line inside the decoder loop. -/
inductive LineOut where
  | skip
  | stop
  | frag (v : JVal)

/-- One complete line of the OpenAI-compatible decoder
(`streamOpenAICompatResponse`, inner `for` loop): only lines with the
`data: ` prefix act; the trimmed payload `[DONE]` returns from the generator;
otherwise the payload is parsed as JSON, a truthy
`choices?.[0]?.delta?.content` is yielded, and parse failures or missing
content are silently skipped. -/
def processLine (line : List Char) : LineOut :=
  if "data: ".data.isPrefixOf line then
    let data := trimChars (line.drop 6)
    if data = "[DONE]".data then LineOut.stop
    else
      match jsonParse data with
      | none => LineOut.skip
      | some v =>
        match extractContent v with
        | some c => if jTruthy c then LineOut.frag c else LineOut.skip
        | none => LineOut.skip
  else LineOut.skip

/-- Run the decoder over a list of complete lines: fragments yielded in order,
and a flag telling whether the `[DONE]` sentinel ended the stream (no later
line is examined after it). -/
def runLines : List (List Char) → List JVal × Bool
  | [] => ([], false)
  | l :: ls =>
    match processLine l with
    | LineOut.stop => ([], true)
    | LineOut.skip => runLines ls
    | LineOut.frag v =>
      let r := runLines ls
      (v :: r.1, r.2)

/-- One character step of newline splitting, prepending `c` to an already
split suffix. -/
def splitStep (c : Char) (r : List (List Char) × List Char) :
    List (List Char) × List Char :=
  if c = '\n' then ([] :: r.1, r.2)
  else
    match r.1 with
    | [] => ([], c :: r.2)
    | l :: ls => ((c :: l) :: ls, r.2)

/-- `text.split(newline)` with the trailing element separated out: the first
component is the complete lines, the second the partial last line that the
source keeps as its carry-over `buffer` (`buffer = lines.pop()`). -/
def splitLines : List Char → List (List Char) × List Char
  | [] => ([], [])
  | c :: cs => splitStep c (splitLines cs)

/-- Full `String.prototype.split` on newline (all parts, at least one). -/
def splitAll (cs : List Char) : List (List Char) :=
  (splitLines cs).1 ++ [(splitLines cs).2]

/-- Result of one `reader.read()` in the streaming loops. -/
inductive ReadEvent where
  | chunk (data : List Char)
  | eof
  | fail (msg : String)

/-- Observable outcome of a full run of a streaming read loop: the fragments
yielded, the error propagated out of the loop (if any), whether
`reader.releaseLock()` ran on the way out, and whether the `[DONE]` sentinel
ended the loop. -/
structure LoopResult where
  frags : List JVal
  err : Option String
  released : Bool
  sentinel : Bool

/-- The OpenAI-compatible read loop of `streamOpenAICompatResponse`
(lines 81–111): carry-over buffer across reads, newline framing, per-line
decoding via `processLine`, and the `try/finally` that makes
`reader.releaseLock()` run on the `done` break, the `[DONE]` return and any
error thrown out of a read. -/
def compatLoop : List Char → List ReadEvent → LoopResult
  | _, [] => ⟨[], none, true, false⟩
  | _, ReadEvent.eof :: _ => ⟨[], none, true, false⟩
  | _, ReadEvent.fail m :: _ => ⟨[], some m, true, false⟩
  | buf, ReadEvent.chunk data :: rest =>
    let p := splitLines (buf ++ data)
    let r := runLines p.1
    if r.2 then ⟨r.1, none, true, true⟩
    else
      let k := compatLoop p.2 rest
      ⟨r.1 ++ k.frags, k.err, k.released, k.sentinel⟩

/-- The optional chain `json.candidates?.[0]?.content?.parts?.[0]?.text` of
the Google branches. -/
def extractGoogleText (v : JVal) : Option JVal :=
  match jGet v "candidates" with
  | some (JVal.arr (c :: _)) =>
    match jGet c "content" with
    | some ct =>
      match jGet ct "parts" with
      | some (JVal.arr (p :: _)) => jGet p "text"
      | _ => none
    | _ => none
  | _ => none

/-- One line of the Google-variant decoder: `data: ` prefix, payload parsed
without trimming, truthy `candidates[0].content.parts[0].text` yielded,
failures skipped. -/
def googleProcessLine (line : List Char) : Option JVal :=
  if "data: ".data.isPrefixOf line then
    match jsonParse (line.drop 6) with
    | some v =>
      match extractGoogleText v with
      | some t => if jTruthy t then some t else none
      | none => none
    | none => none
  else none

/-- The Google-variant read loop (`generateStreamingResponse` lines 318–333,
`generateFlowchartResponse` lines 187–202): each chunk is split on newline in
isolation (no carry-over buffer), every part of the split is examined, there
is no `[DONE]` sentinel, and the source contains no `reader.releaseLock()`
call on any path, so `released` is `false` throughout. -/
def googleLoop : List ReadEvent → LoopResult
  | [] => ⟨[], none, false, false⟩
  | ReadEvent.eof :: _ => ⟨[], none, false, false⟩
  | ReadEvent.fail m :: _ => ⟨[], some m, false, false⟩
  | ReadEvent.chunk data :: rest =>
    let fs := (splitAll data).filterMap googleProcessLine
    let k := googleLoop rest
    ⟨fs ++ k.frags, k.err, false, false⟩

/-- Unfolding lemma for `splitLines` on a cons cell. -/
theorem splitLines_cons (c : Char) (cs : List Char) :
    splitLines (c :: cs) = splitStep c (splitLines cs) := rfl

/-- `splitStep` on a newline pushes an empty fresh line. -/
theorem splitStep_nl (r : List (List Char) × List Char) :
    splitStep '\n' r = ([] :: r.1, r.2) := by
  simp [splitStep]

/-- `splitStep` on an ordinary character with no completed line yet extends
the carry-over. -/
theorem splitStep_fst_nil {c : Char} (hc : c ≠ '\n')
    {r : List (List Char) × List Char} (hr : r.1 = []) :
    splitStep c r = ([], c :: r.2) := by
  unfold splitStep
  rw [if_neg hc, hr]

/-- `splitStep` on an ordinary character with a completed first line extends
that line. -/
theorem splitStep_fst_cons {c : Char} (hc : c ≠ '\n')
    {r : List (List Char) × List Char} {l : List Char} {ls : List (List Char)}
    (hr : r.1 = l :: ls) :
    splitStep c r = ((c :: l) :: ls, r.2) := by
  unfold splitStep
  rw [if_neg hc, hr]

/-- Characters of the carry-over come from the input or the stepped
character, and a newline is never kept there. -/
theorem splitStep_snd_sub (c : Char) (r : List (List Char) × List Char)
    (x : Char) (h : x ∈ (splitStep c r).2) : x ∈ r.2 ∨ (x = c ∧ c ≠ '\n') := by
  unfold splitStep at h
  split at h
  · exact Or.inl h
  · next hc =>
    rcases hr : r.1 with _ | ⟨l, ls⟩ <;> rw [hr] at h
    · simp only [List.mem_cons] at h
      rcases h with h | h
      · exact Or.inr ⟨h, hc⟩
      · exact Or.inl h
    · exact Or.inl h

/-- The carry-over component returned by `splitLines` never contains a
newline: it is the partial last line of the text. -/
theorem nl_not_mem_splitLines_snd (s : List Char) : '\n' ∉ (splitLines s).2 := by
  induction s with
  | nil => simp [splitLines]
  | cons c cs ih =>
    intro hmem
    rw [splitLines_cons] at hmem
    rcases splitStep_snd_sub c (splitLines cs) '\n' hmem with h | ⟨he, hne⟩
    · exact ih h
    · exact hne he.symm

/-- Text without a newline splits into no complete line and itself as the
carry-over. -/
theorem splitLines_no_nl (s : List Char) (h : '\n' ∉ s) : splitLines s = ([], s) := by
  induction s with
  | nil => rfl
  | cons c cs ih =>
    have hc : c ≠ '\n' := fun hh => h (hh ▸ List.mem_cons_self c cs)
    have hcs : '\n' ∉ cs := fun hh => h (List.mem_cons_of_mem c hh)
    rw [splitLines_cons, ih hcs, splitStep_fst_nil hc rfl]

/-- Splicing: splitting `x ++ y` yields the complete lines of `x` followed by
the lines obtained after prefixing the carry-over of `x` to `y` — exactly the
behaviour of the source's `buffer += decode(value)` followed by
`split` and `pop`. -/
theorem splitLines_append (x y : List Char) :
    splitLines (x ++ y) =
      ((splitLines x).1 ++ (splitLines ((splitLines x).2 ++ y)).1,
       (splitLines ((splitLines x).2 ++ y)).2) := by
  induction x with
  | nil => simp [splitLines]
  | cons c x ih =>
    rw [List.cons_append, splitLines_cons, ih]
    by_cases hc : c = '\n'
    · subst hc
      simp [splitLines_cons, splitStep]
    · cases h1 : (splitLines x).1 with
      | nil => simp [splitLines_cons, splitStep, hc, h1]
      | cons l ls => simp [splitLines_cons, splitStep, hc, h1]

/-- Unfolding lemma for `runLines` on a cons cell. -/
theorem runLines_cons (l : List Char) (ls : List (List Char)) :
    runLines (l :: ls) =
      match processLine l with
      | LineOut.stop => ([], true)
      | LineOut.skip => runLines ls
      | LineOut.frag v => (v :: (runLines ls).1, (runLines ls).2) := rfl

/-- Running the line decoder over an appended line list: if the first part
hits the `[DONE]` sentinel the second part is never examined, otherwise the
fragments concatenate. -/
theorem runLines_append (a b : List (List Char)) :
    runLines (a ++ b) =
      if (runLines a).2 then runLines a
      else ((runLines a).1 ++ (runLines b).1, (runLines b).2) := by
  induction a with
  | nil => simp [runLines]
  | cons l ls ih =>
    rw [List.cons_append, runLines_cons, runLines_cons]
    cases hp : processLine l with
    | stop => simp
    | skip => simpa using ih
    | frag v =>
      rw [ih]
      by_cases hd : (runLines ls).2 <;> simp [hd]

/-- Chunking invariance of the OpenAI-compatible read loop: fed any sequence
of network chunks, the loop produces exactly the fragments of the reference
line-by-line decode of the concatenated body (complete lines only), with the
reader released and no error; the carry-over buffer makes the chunk
boundaries unobservable. -/
theorem compatLoop_chunks (reads : List (List Char)) (buf : List Char)
    (hbuf : '\n' ∉ buf) :
    compatLoop buf (reads.map ReadEvent.chunk) =
      ⟨(runLines (splitLines (buf ++ reads.flatten)).1).1, none, true,
       (runLines (splitLines (buf ++ reads.flatten)).1).2⟩ := by
  induction reads generalizing buf with
  | nil =>
    simp [compatLoop, splitLines_no_nl buf hbuf, runLines]
  | cons r rs ih =>
    simp only [List.map_cons, compatLoop, List.flatten_cons]
    rw [show buf ++ (r ++ rs.flatten) = (buf ++ r) ++ rs.flatten from
      (List.append_assoc buf r rs.flatten).symm]
    rw [splitLines_append (buf ++ r) rs.flatten, runLines_append]
    rw [ih _ (nl_not_mem_splitLines_snd (buf ++ r))]
    by_cases hd : (runLines (splitLines (buf ++ r)).1).2 <;> simp [hd]

/-- The response body of the spec's OpenAI-compatible streaming example:
two content-bearing events followed by the `[DONE]` sentinel. -/
def c1ExampleBody : String :=
  "data: \x7b\"choices\":[\x7b\"delta\":\x7b\"content\":\"Hi\"\x7d\x7d]\x7d\n\ndata: \x7b\"choices\":[\x7b\"delta\":\x7b\"content\":\"!\"\x7d\x7d]\x7d\n\ndata: [DONE]\n\n"

/-- A body whose first data line is malformed JSON, followed by a valid
content-bearing line. -/
def c1MalformedBody : String :=
  "data: \x7bmalformed\ndata: \x7b\"choices\":[\x7b\"delta\":\x7b\"content\":\"ok\"\x7d\x7d]\x7d\n"

/-- First network chunk of a two-chunk presentation of `c1ExampleBody`,
cutting the second event line in the middle. -/
def c1Chunk1 : String :=
  "data: \x7b\"choices\":[\x7b\"delta\":\x7b\"content\":\"Hi\"\x7d\x7d]\x7d\n\ndata: \x7b\"choi"

/-- Second network chunk of the two-chunk presentation of `c1ExampleBody`. -/
def c1Chunk2 : String :=
  "ces\":[\x7b\"delta\":\x7b\"content\":\"!\"\x7d\x7d]\x7d\n\ndata: [DONE]\n\n"

/-- C1: the OpenAI-compatible streaming transport decodes any chunked
presentation of a response body exactly as the reference line-by-line SSE
decoder of the concatenated body (the carry-over buffer holds each read's
partial last line, only complete `data: `-prefixed lines act, `[DONE]` stops
the stream, truthy delta content is yielded, malformed payloads are skipped);
in particular the spec's example body yields exactly the fragments "Hi" then
"!" and then terminates at the sentinel with no error and the reader
released, and a malformed data line is skipped without error and without
ending the stream while a later valid line still yields. -/
theorem c1_openai_sse_decoder :
    (∀ reads : List (List Char),
      compatLoop [] (reads.map ReadEvent.chunk) =
        ⟨(runLines (splitLines reads.flatten).1).1, none, true,
         (runLines (splitLines reads.flatten).1).2⟩) ∧
    (∀ reads : List (List Char), reads.flatten = c1ExampleBody.data →
      compatLoop [] (reads.map ReadEvent.chunk) =
        ⟨[JVal.str "Hi", JVal.str "!"], none, true, true⟩) ∧
    compatLoop [] [ReadEvent.chunk c1MalformedBody.data] =
      ⟨[JVal.str "ok"], none, true, false⟩ := by
  refine ⟨?_, ?_, by rfl⟩
  · intro reads
    simpa using compatLoop_chunks reads [] (by simp)
  · intro reads h
    have := compatLoop_chunks reads [] (by simp)
    rw [h] at this
    simpa using this

/-- Witness for C1: the two-chunk presentation of the example body, splitting
one event line across the chunk boundary, yields exactly "Hi" then "!" and
terminates at the sentinel. -/
theorem c1_openai_sse_decoder_witness :
    compatLoop [] ([c1Chunk1.data, c1Chunk2.data].map ReadEvent.chunk) =
      ⟨[JVal.str "Hi", JVal.str "!"], none, true, true⟩ :=
  c1_openai_sse_decoder.2.1 [c1Chunk1.data, c1Chunk2.data] (by rfl)

/-- One conversation turn as passed to the service (`{ role, content }`). -/
structure ChatMessage where
  role : String
  content : String

/-- JSON body of an OpenAI-compatible chat-completions request, with the
fields `streamOpenAICompatResponse` serializes. -/
structure OpenAIBody where
  model : String
  messages : List ChatMessage
  stream : Bool
  max_tokens : Nat
  temperature : Option ℚ

/-- The default of the helper's `timeout` parameter (60000 ms); every call
site in the source omits the argument, so this value applies to all
OpenAI-compatible streaming calls. -/
def defaultStreamTimeoutMs : Nat := 60000

/-- One OpenAI-compatible streaming HTTP call as issued by the helper:
endpoint, bearer key, serialized body and the cancellation-timer duration. -/
structure CompatCall where
  url : String
  apiKey : String
  body : OpenAIBody
  timeoutMs : Nat

/-- One `{text}` part of a Google request. -/
structure GPart where
  text : String

/-- One `{role, parts}` turn of a Google request. -/
structure GContent where
  role : String
  parts : List GPart

/-- One Google streaming HTTP call: endpoint (carrying model and API key in
the query string), `contents` body, the optional
`generationConfig.responseMimeType` constraint, and the timer duration. -/
structure GoogleCall where
  url : String
  contents : List GContent
  responseMimeType : Option String
  timeoutMs : Nat

/-- The HTTP call a dispatch method resolves to. -/
inductive ProviderCall where
  | google (g : GoogleCall)
  | compat (c : CompatCall)

/-- Request construction of `streamOpenAICompatResponse` (lines 44-66): the
system prompt becomes a leading `system` turn, and the serialized body always
carries `stream: true`, `max_tokens: 8192` and `temperature: 0.2` — the
helper hardcodes the lowered temperature for every caller. -/
def streamOpenAICompatRequest (url apiKey model : String)
    (messages : List ChatMessage) (systemPrompt : String) (timeoutMs : Nat) :
    CompatCall :=
  ⟨url, apiKey,
   ⟨model, ⟨"system", systemPrompt⟩ :: messages, true, 8192, some (0.2 : ℚ)⟩,
   timeoutMs⟩

/-- Does `pat` occur as a contiguous run inside the list? -/
def infixCheck (pat : List Char) : List Char → Bool
  | [] => pat.isEmpty
  | c :: cs => pat.isPrefixOf (c :: cs) || infixCheck pat cs

/-- `model.startsWith(p)`. -/
def strStartsWith (s p : String) : Bool := p.data.isPrefixOf s.data

/-- `model.includes(p)`. -/
def strIncludes (s p : String) : Bool := infixCheck p.data s.data

/-- The settings record held by `AiService` (API keys, selected model; the
tutor-mode key only selects a system-prompt string and is kept abstract by
passing the resolved prompt into the chat dispatch). -/
structure APISettings where
  googleApiKey : String
  zhipuApiKey : String
  mistralApiKey : String
  groqApiKey : String
  cerebrasApiKey : String
  selectedModel : String

/-- Mistral chat-completions endpoint. -/
def mistralUrl : String := "https://api.mistral.ai/v1/chat/completions"

/-- Groq chat-completions endpoint. -/
def groqUrl : String := "https://api.groq.com/openai/v1/chat/completions"

/-- Cerebras chat-completions endpoint. -/
def cerebrasUrl : String := "https://api.cerebras.ai/v1/chat/completions"

/-- Zhipu chat-completions endpoint. -/
def zhipuUrl : String := "https://open.bigmodel.cn/api/paas/v4/chat/completions"

/-- Google streaming endpoint for a model, with the API key in the query
string. -/
def googleStreamUrl (model key : String) : String :=
  "https://generativelanguage.googleapis.com/v1beta/models/" ++ model ++
    ":streamGenerateContent?key=" ++ key ++ "&alt=sse"

/-- Mapping of chat turns to Google `contents` entries: `assistant` becomes
`model`, everything else `user`, content wrapped in a one-element `parts`. -/
def toGoogleContents (msgs : List ChatMessage) : List GContent :=
  msgs.map (fun m => ⟨if m.role == "assistant" then "model" else "user", [⟨m.content⟩]⟩)

/-- The fixed flowchart system prompt of `generateFlowchartResponse`. -/
def flowchartSystemPrompt : String :=
  "You are a helpful assistant that generates flowcharts in valid JSON format. Do not output markdown code blocks, just raw JSON."

/-- Routing and request construction of `generateStreamingResponse`
(lines 268-402): empty-history check, then the ordered rules — `gemini`/
`gemma` prefix to Google (30 s timer, no mime constraint), `mistral`/
`codestral` substring to Mistral, `glm` substring with the exact
`zai-glm-4.6` identifier special-cased to Cerebras and every other `glm` to
Zhipu, `llama`/`openai/gpt-oss-20b` substring to Groq, `gpt-oss-120b`/`qwen`
substring to Cerebras, otherwise an unsupported-model error. Each
OpenAI-compatible branch delegates to the helper without a timeout argument,
so the 60 s default applies. The system prompt resolved from the selected
tutor mode is passed in as `systemPrompt`. -/
def generateStreamingDispatch (s : APISettings) (messages : List ChatMessage)
    (systemPrompt : String) : Except String ProviderCall :=
  if messages.isEmpty then Except.error "No messages provided"
  else
    let model := s.selectedModel
    if strStartsWith model "gemini" || strStartsWith model "gemma" then
      if s.googleApiKey == "" then Except.error "Google API key not set"
      else Except.ok (ProviderCall.google
        ⟨googleStreamUrl model s.googleApiKey,
         ⟨"user", [⟨systemPrompt⟩]⟩ ::
           ⟨"model", [⟨"Understood. I will follow this role."⟩]⟩ ::
           toGoogleContents messages,
         none, 30000⟩)
    else if strIncludes model "mistral" || strIncludes model "codestral" then
      if s.mistralApiKey == "" then Except.error "Mistral API key not set"
      else Except.ok (ProviderCall.compat (streamOpenAICompatRequest
        mistralUrl s.mistralApiKey model messages systemPrompt
        defaultStreamTimeoutMs))
    else if strIncludes model "glm" then
      if model == "zai-glm-4.6" then
        if s.cerebrasApiKey == "" then
          Except.error "Cerebras API key not set for ZAI GLM"
        else Except.ok (ProviderCall.compat (streamOpenAICompatRequest
          cerebrasUrl s.cerebrasApiKey model messages systemPrompt
          defaultStreamTimeoutMs))
      else if s.zhipuApiKey == "" then Except.error "ZhipuAI API key not set"
      else Except.ok (ProviderCall.compat (streamOpenAICompatRequest
        zhipuUrl s.zhipuApiKey model messages systemPrompt
        defaultStreamTimeoutMs))
    else if strIncludes model "llama" || strIncludes model "openai/gpt-oss-20b" then
      if s.groqApiKey == "" then Except.error "Groq API key not set"
      else Except.ok (ProviderCall.compat (streamOpenAICompatRequest
        groqUrl s.groqApiKey model messages systemPrompt
        defaultStreamTimeoutMs))
    else if strIncludes model "gpt-oss-120b" || strIncludes model "qwen" then
      if s.cerebrasApiKey == "" then Except.error "Cerebras API key not set"
      else Except.ok (ProviderCall.compat (streamOpenAICompatRequest
        cerebrasUrl s.cerebrasApiKey model messages systemPrompt
        defaultStreamTimeoutMs))
    else Except.error ("Model " ++ model ++ " not supported or API key missing.")

/-- Routing and request construction of `generateFlowchartResponse`
(lines 141-265): same rules in a different order — Google (60 s timer, JSON
mime constraint, raw-JSON acknowledgement turn), Mistral, Groq, Cerebras
(whose condition also captures the exact `zai-glm-4.6` identifier before the
Zhipu rule runs), Zhipu, otherwise an unsupported-model error. All branches
use the fixed flowchart system prompt, and the OpenAI-compatible branches
again leave the helper's 60 s default timeout in force. -/
def generateFlowchartDispatch (s : APISettings) (messages : List ChatMessage) :
    Except String ProviderCall :=
  let model := s.selectedModel
  if strStartsWith model "gemini" || strStartsWith model "gemma" then
    if s.googleApiKey == "" then Except.error "Google API key not set"
    else Except.ok (ProviderCall.google
      ⟨googleStreamUrl model s.googleApiKey,
       ⟨"user", [⟨flowchartSystemPrompt⟩]⟩ ::
         ⟨"model", [⟨"Understood. I will output raw JSON."⟩]⟩ ::
         toGoogleContents messages,
       some "application/json", 60000⟩)
  else if strIncludes model "mistral" || strIncludes model "codestral" then
    if s.mistralApiKey == "" then Except.error "Mistral API key not set"
    else Except.ok (ProviderCall.compat (streamOpenAICompatRequest
      mistralUrl s.mistralApiKey model messages flowchartSystemPrompt
      defaultStreamTimeoutMs))
  else if strIncludes model "llama" || strIncludes model "openai/gpt-oss-20b" then
    if s.groqApiKey == "" then Except.error "Groq API key not set"
    else Except.ok (ProviderCall.compat (streamOpenAICompatRequest
      groqUrl s.groqApiKey model messages flowchartSystemPrompt
      defaultStreamTimeoutMs))
  else if strIncludes model "gpt-oss-120b" || strIncludes model "qwen"
      || model == "zai-glm-4.6" then
    if s.cerebrasApiKey == "" then Except.error "Cerebras API key not set"
    else Except.ok (ProviderCall.compat (streamOpenAICompatRequest
      cerebrasUrl s.cerebrasApiKey model messages flowchartSystemPrompt
      defaultStreamTimeoutMs))
  else if strIncludes model "glm" then
    if s.zhipuApiKey == "" then Except.error "ZhipuAI API key not set"
    else Except.ok (ProviderCall.compat (streamOpenAICompatRequest
      zhipuUrl s.zhipuApiKey model messages flowchartSystemPrompt
      defaultStreamTimeoutMs))
  else Except.error ("Model " ++ model ++ " not supported for flowchart generation.")

/-- Endpoint URL of a resolved call. -/
def ProviderCall.endpoint : ProviderCall → String
  | ProviderCall.google g => g.url
  | ProviderCall.compat c => c.url

/-- Bearer API key of a resolved call (`none` for Google, whose key travels
in the endpoint URL and is therefore compared through `endpoint`). -/
def ProviderCall.bearerKey : ProviderCall → Option String
  | ProviderCall.google _ => none
  | ProviderCall.compat c => some c.apiKey

/-- Cancellation-timer duration of a resolved call. -/
def ProviderCall.timerMs : ProviderCall → Nat
  | ProviderCall.google g => g.timeoutMs
  | ProviderCall.compat c => c.timeoutMs

/-- Serialized OpenAI-compatible body of a resolved call, when there is one. -/
def ProviderCall.compatBody : ProviderCall → Option OpenAIBody
  | ProviderCall.google _ => none
  | ProviderCall.compat c => some c.body

/-- Provider identity of a resolved call: endpoint plus bearer key. -/
def routeOf (d : Except String ProviderCall) :
    Except String (String × Option String) :=
  d.map (fun c => (c.endpoint, c.bearerKey))

/-- C2: the exact identifier `zai-glm-4.6` routes to the Cerebras endpoint
with the Cerebras key in both the chat and the flowchart dispatch — never to
Zhipu — even though it contains the substring `glm`; with the Cerebras key
missing, the failure is still the Cerebras credential error, not a Zhipu
route. -/
theorem c2_zai_glm_routes_to_cerebras :
    ∀ (s : APISettings) (msgs : List ChatMessage) (p : String),
      s.selectedModel = "zai-glm-4.6" → msgs.isEmpty = false →
      generateStreamingDispatch s msgs p =
        (if s.cerebrasApiKey == "" then
          Except.error "Cerebras API key not set for ZAI GLM"
         else Except.ok (ProviderCall.compat (streamOpenAICompatRequest
           cerebrasUrl s.cerebrasApiKey "zai-glm-4.6" msgs p
           defaultStreamTimeoutMs))) ∧
      generateFlowchartDispatch s msgs =
        (if s.cerebrasApiKey == "" then
          Except.error "Cerebras API key not set"
         else Except.ok (ProviderCall.compat (streamOpenAICompatRequest
           cerebrasUrl s.cerebrasApiKey "zai-glm-4.6" msgs
           flowchartSystemPrompt defaultStreamTimeoutMs))) := by
  intro s msgs p hm hne
  constructor
  · simp +decide [generateStreamingDispatch, hm, hne]
  · simp +decide [generateFlowchartDispatch, hm]

/-- Witness for C2 at a concrete settings record with the Cerebras key set. -/
theorem c2_zai_glm_witness :
    generateStreamingDispatch ⟨"", "", "", "", "ck", "zai-glm-4.6"⟩
        [⟨"user", "hi"⟩] "p" =
      Except.ok (ProviderCall.compat (streamOpenAICompatRequest cerebrasUrl
        "ck" "zai-glm-4.6" [⟨"user", "hi"⟩] "p" defaultStreamTimeoutMs)) ∧
    generateFlowchartDispatch ⟨"", "", "", "", "ck", "zai-glm-4.6"⟩
        [⟨"user", "hi"⟩] =
      Except.ok (ProviderCall.compat (streamOpenAICompatRequest cerebrasUrl
        "ck" "zai-glm-4.6" [⟨"user", "hi"⟩] flowchartSystemPrompt
        defaultStreamTimeoutMs)) := by
  have h := c2_zai_glm_routes_to_cerebras ⟨"", "", "", "", "ck", "zai-glm-4.6"⟩
    [⟨"user", "hi"⟩] "p" rfl rfl
  simpa using h

/-- The thirteen model identifiers of the `AIModel` union type. -/
def knownModels : List String :=
  ["gemini-2.5-pro", "gemini-2.5-flash", "gemma-3-27b-it",
   "mistral-large-latest", "mistral-medium-latest", "mistral-small-latest",
   "codestral-latest", "glm-4.5-flash", "llama-3.3-70b-versatile",
   "openai/gpt-oss-20b", "gpt-oss-120b", "qwen-3-235b-a22b-instruct-2507",
   "zai-glm-4.6"]

/-- `routeOf` commutes with a branch on a key check. -/
theorem routeOf_ite (c : Prop) [Decidable c] (a b : Except String ProviderCall) :
    routeOf (if c then a else b) = if c then routeOf a else routeOf b := by
  split <;> rfl

/-- `routeOf` on an error. -/
theorem routeOf_error (e : String) :
    routeOf (Except.error e) = Except.error e := rfl

/-- `routeOf` on a resolved call. -/
theorem routeOf_ok (pc : ProviderCall) :
    routeOf (Except.ok pc) = Except.ok (pc.endpoint, pc.bearerKey) := rfl

/-- C10: for every known model identifier the chat dispatch and the
flowchart dispatch resolve to the same provider — same endpoint URL and same
bearer key — although the two methods test the routing rules in different
orders (the Cerebras key is assumed configured, since for `zai-glm-4.6` the
two methods word their missing-Cerebras-credential errors differently). -/
theorem c10_dispatches_agree :
    ∀ (s : APISettings) (msgs : List ChatMessage) (p : String),
      (s.cerebrasApiKey == "") = false → msgs.isEmpty = false →
      s.selectedModel ∈ knownModels →
      routeOf (generateStreamingDispatch s msgs p) =
        routeOf (generateFlowchartDispatch s msgs) := by
  intro s msgs p hc hne hm
  simp only [knownModels, List.mem_cons, List.not_mem_nil, or_false] at hm
  rcases hm with h|h|h|h|h|h|h|h|h|h|h|h|h <;>
    simp +decide [generateStreamingDispatch, generateFlowchartDispatch, h,
      hne, hc, routeOf_ite, routeOf_error, routeOf_ok,
      ProviderCall.endpoint, ProviderCall.bearerKey,
      streamOpenAICompatRequest]

/-- Witness for C10 at a concrete settings record and model. -/
theorem c10_dispatches_agree_witness :
    routeOf (generateStreamingDispatch ⟨"g", "z", "m", "q", "c", "glm-4.5-flash"⟩
        [⟨"user", "hi"⟩] "p") =
      routeOf (generateFlowchartDispatch ⟨"g", "z", "m", "q", "c", "glm-4.5-flash"⟩
        [⟨"user", "hi"⟩]) :=
  c10_dispatches_agree ⟨"g", "z", "m", "q", "c", "glm-4.5-flash"⟩
    [⟨"user", "hi"⟩] "p" rfl rfl (by decide)

/-- C7 (amended): a model identifier matching none of the routing substrings
— not starting with `gemini`/`gemma` and not containing `mistral`,
`codestral`, `glm`, `llama`, `openai/gpt-oss-20b`, `gpt-oss-120b` or `qwen`
— makes both dispatch methods fail with their unsupported-model errors, and
no provider call is ever constructed (the Groq rule tests containment of
`openai/gpt-oss-20b`, not equality with it). -/
theorem c7_unknown_model_errors :
    ∀ (s : APISettings) (msgs : List ChatMessage) (p : String),
      msgs.isEmpty = false →
      strStartsWith s.selectedModel "gemini" = false →
      strStartsWith s.selectedModel "gemma" = false →
      strIncludes s.selectedModel "mistral" = false →
      strIncludes s.selectedModel "codestral" = false →
      strIncludes s.selectedModel "glm" = false →
      strIncludes s.selectedModel "llama" = false →
      strIncludes s.selectedModel "openai/gpt-oss-20b" = false →
      strIncludes s.selectedModel "gpt-oss-120b" = false →
      strIncludes s.selectedModel "qwen" = false →
      generateStreamingDispatch s msgs p =
        Except.error ("Model " ++ s.selectedModel ++
          " not supported or API key missing.") ∧
      generateFlowchartDispatch s msgs =
        Except.error ("Model " ++ s.selectedModel ++
          " not supported for flowchart generation.") := by
  intro s msgs p hne h1 h2 h3 h4 h5 h6 h7 h8 h9
  have hz : (s.selectedModel == "zai-glm-4.6") = false := by
    by_cases hb : s.selectedModel = "zai-glm-4.6"
    · rw [hb] at h5
      exact absurd h5 (by decide)
    · exact beq_eq_false_iff_ne.mpr hb
  constructor
  · simp [generateStreamingDispatch, hne, h1, h2, h3, h4, h5, h6, h7, h8, h9]
  · simp [generateFlowchartDispatch, h1, h2, h3, h4, h5, h6, h7, h8, h9, hz]

/-- Witness for C7 at the concrete unknown identifier `foo-bar-2000`. -/
theorem c7_unknown_model_errors_witness :
    generateStreamingDispatch ⟨"g", "z", "m", "q", "c", "foo-bar-2000"⟩
        [⟨"user", "hi"⟩] "p" =
      Except.error "Model foo-bar-2000 not supported or API key missing." ∧
    generateFlowchartDispatch ⟨"g", "z", "m", "q", "c", "foo-bar-2000"⟩
        [⟨"user", "hi"⟩] =
      Except.error "Model foo-bar-2000 not supported for flowchart generation." := by
  have h := c7_unknown_model_errors ⟨"g", "z", "m", "q", "c", "foo-bar-2000"⟩
    [⟨"user", "hi"⟩] "p" rfl (by decide) (by decide) (by decide) (by decide)
    (by decide) (by decide) (by decide) (by decide) (by decide)
  simpa using h

/-- Counterexample to C7 as stated: the identifier `xopenai/gpt-oss-20b`
satisfies every precondition of the claim (it matches none of the listed
substrings and is not equal to `openai/gpt-oss-20b`), yet both dispatch
methods route it to the Groq provider instead of failing, because the source
tests `includes('openai/gpt-oss-20b')` rather than equality. -/
theorem c7_counterexample_includes_not_equality :
    strStartsWith "xopenai/gpt-oss-20b" "gemini" = false ∧
    strStartsWith "xopenai/gpt-oss-20b" "gemma" = false ∧
    strIncludes "xopenai/gpt-oss-20b" "mistral" = false ∧
    strIncludes "xopenai/gpt-oss-20b" "codestral" = false ∧
    strIncludes "xopenai/gpt-oss-20b" "glm" = false ∧
    strIncludes "xopenai/gpt-oss-20b" "llama" = false ∧
    strIncludes "xopenai/gpt-oss-20b" "gpt-oss-120b" = false ∧
    strIncludes "xopenai/gpt-oss-20b" "qwen" = false ∧
    "xopenai/gpt-oss-20b" ≠ "openai/gpt-oss-20b" ∧
    generateStreamingDispatch ⟨"g", "z", "m", "q", "c", "xopenai/gpt-oss-20b"⟩
        [⟨"user", "hi"⟩] "p" =
      Except.ok (ProviderCall.compat (streamOpenAICompatRequest groqUrl "q"
        "xopenai/gpt-oss-20b" [⟨"user", "hi"⟩] "p" defaultStreamTimeoutMs)) ∧
    generateFlowchartDispatch ⟨"g", "z", "m", "q", "c", "xopenai/gpt-oss-20b"⟩
        [⟨"user", "hi"⟩] =
      Except.ok (ProviderCall.compat (streamOpenAICompatRequest groqUrl "q"
        "xopenai/gpt-oss-20b" [⟨"user", "hi"⟩] flowchartSystemPrompt
        defaultStreamTimeoutMs)) :=
  ⟨by decide, by decide, by decide, by decide, by decide, by decide,
   by decide, by decide, by decide, by rfl, by rfl⟩

/-- C3 (amended): every OpenAI-compatible request body — from the chat
dispatch as well as the flowchart dispatch — carries the selected model id,
the turn list with the system prompt prepended as a leading `system` turn,
`stream: true`, `max_tokens: 8192`, and `temperature: 0.2`; the helper
hardcodes the 0.2 temperature, so normal chat requests send it too. -/
theorem c3_openai_request_body :
    (∀ (s : APISettings) (msgs : List ChatMessage) (p : String) (c : CompatCall),
      generateStreamingDispatch s msgs p = Except.ok (ProviderCall.compat c) →
      c.body = ⟨s.selectedModel, ⟨"system", p⟩ :: msgs, true, 8192,
        some (0.2 : ℚ)⟩) ∧
    (∀ (s : APISettings) (msgs : List ChatMessage) (c : CompatCall),
      generateFlowchartDispatch s msgs = Except.ok (ProviderCall.compat c) →
      c.body = ⟨s.selectedModel, ⟨"system", flowchartSystemPrompt⟩ :: msgs,
        true, 8192, some (0.2 : ℚ)⟩) := by
  constructor
  · intro s msgs p c h
    simp only [generateStreamingDispatch] at h
    repeat' split at h
    all_goals (cases h <;> rfl)
  · intro s msgs c h
    simp only [generateFlowchartDispatch] at h
    repeat' split at h
    all_goals (cases h <;> rfl)

/-- Witness for C3 at a concrete Mistral-routed chat dispatch. -/
theorem c3_openai_request_body_witness :
    (streamOpenAICompatRequest mistralUrl "m" "mistral-large-latest"
        [⟨"user", "x"⟩] "p" defaultStreamTimeoutMs).body =
      ⟨"mistral-large-latest", [⟨"system", "p"⟩, ⟨"user", "x"⟩], true, 8192,
       some (0.2 : ℚ)⟩ := by
  have h := c3_openai_request_body.1 ⟨"g", "z", "m", "q", "c", "mistral-large-latest"⟩
    [⟨"user", "x"⟩] "p" _ rfl
  simpa using h

/-- Counterexample to C3 as stated: a normal chat request routed through the
OpenAI-compatible transport does carry a temperature override — the body of
the Mistral chat call has `temperature = 0.2`, not the claimed absent
temperature. -/
theorem c3_counterexample_chat_sends_temperature :
    Except.map ProviderCall.compatBody
        (generateStreamingDispatch ⟨"g", "z", "m", "q", "c", "mistral-large-latest"⟩
          [⟨"user", "hello"⟩] "tutor prompt") =
      Except.ok (some ⟨"mistral-large-latest",
        [⟨"system", "tutor prompt"⟩, ⟨"user", "hello"⟩], true, 8192,
        some (0.2 : ℚ)⟩) ∧
    (some (0.2 : ℚ) : Option ℚ) ≠ none :=
  ⟨by rfl, by simp⟩

/-- C4 (amended): the transport's default cancellation-timer duration is
60 s; every OpenAI-compatible streaming call — chat as well as flowchart —
runs with that 60 s default because no call site passes a timeout, while the
Google chat branch arms a 30 s timer and the Google flowchart branch a 60 s
timer. -/
theorem c4_stream_timeouts :
    defaultStreamTimeoutMs = 60000 ∧
    (∀ (s : APISettings) (msgs : List ChatMessage) (p : String) (c : CompatCall),
      generateStreamingDispatch s msgs p = Except.ok (ProviderCall.compat c) →
      c.timeoutMs = 60000) ∧
    (∀ (s : APISettings) (msgs : List ChatMessage) (p : String) (g : GoogleCall),
      generateStreamingDispatch s msgs p = Except.ok (ProviderCall.google g) →
      g.timeoutMs = 30000) ∧
    (∀ (s : APISettings) (msgs : List ChatMessage) (c : CompatCall),
      generateFlowchartDispatch s msgs = Except.ok (ProviderCall.compat c) →
      c.timeoutMs = 60000) ∧
    (∀ (s : APISettings) (msgs : List ChatMessage) (g : GoogleCall),
      generateFlowchartDispatch s msgs = Except.ok (ProviderCall.google g) →
      g.timeoutMs = 60000) := by
  refine ⟨rfl, ?_, ?_, ?_, ?_⟩
  · intro s msgs p c h
    simp only [generateStreamingDispatch] at h
    repeat' split at h
    all_goals (cases h <;> rfl)
  · intro s msgs p g h
    simp only [generateStreamingDispatch] at h
    repeat' split at h
    all_goals (cases h <;> rfl)
  · intro s msgs c h
    simp only [generateFlowchartDispatch] at h
    repeat' split at h
    all_goals (cases h <;> rfl)
  · intro s msgs g h
    simp only [generateFlowchartDispatch] at h
    repeat' split at h
    all_goals (cases h <;> rfl)

/-- Witness for C4: the concrete Mistral chat call runs on the 60 s default
and the concrete Google chat call on the 30 s timer. -/
theorem c4_stream_timeouts_witness :
    (streamOpenAICompatRequest mistralUrl "m" "mistral-large-latest"
        [⟨"user", "x"⟩] "p" defaultStreamTimeoutMs).timeoutMs = 60000 ∧
    Except.map ProviderCall.timerMs
        (generateStreamingDispatch ⟨"g", "z", "m", "q", "c", "gemini-2.5-flash"⟩
          [⟨"user", "x"⟩] "p") = Except.ok 30000 := by
  constructor
  · exact c4_stream_timeouts.2.1 ⟨"g", "z", "m", "q", "c", "mistral-large-latest"⟩
      [⟨"user", "x"⟩] "p" _ rfl
  · have h := c4_stream_timeouts.2.2.1 ⟨"g", "z", "m", "q", "c", "gemini-2.5-flash"⟩
      [⟨"user", "x"⟩] "p" _ rfl
    exact congrArg (Except.map ProviderCall.timerMs) (rfl :
      generateStreamingDispatch ⟨"g", "z", "m", "q", "c", "gemini-2.5-flash"⟩
        [⟨"user", "x"⟩] "p" = _) |>.trans (congrArg Except.ok h)

/-- Counterexample to C4 as stated: a normal chat completion routed to
Mistral arms a 60 s timer, not the claimed 30 s. -/
theorem c4_counterexample_chat_timeout :
    Except.map ProviderCall.timerMs
        (generateStreamingDispatch ⟨"g", "z", "m", "q", "c", "mistral-large-latest"⟩
          [⟨"user", "hello"⟩] "p") = Except.ok 60000 ∧
    (60000 : Nat) ≠ 30000 :=
  ⟨by rfl, by decide⟩

/-- An HTTP response as the transport observes it: status, status text and
the optional streamed body (as the list of reads; `none` models a null
body). -/
structure HttpResponse where
  status : Nat
  statusText : String
  body : Option (List (List Char))

/-- `response.ok` of the fetch API: status in the 200–299 range. -/
def HttpResponse.isOk (r : HttpResponse) : Bool :=
  decide (200 ≤ r.status ∧ r.status ≤ 299)

/-- Response handling of `streamOpenAICompatResponse` (lines 71–111): a
non-2xx status reads the error body (logging it only) and throws
`API Error: <status> <statusText>`; a null body throws; otherwise the read
loop decodes the body. The success value pairs the yielded fragments with
the sentinel flag. -/
def runOpenAICompatResponse (resp : HttpResponse) :
    Except String (List JVal × Bool) :=
  if !resp.isOk then
    Except.error ("API Error: " ++ toString resp.status ++ " " ++ resp.statusText)
  else
    match resp.body with
    | none => Except.error "Response body is null"
    | some reads =>
      let r := compatLoop [] (reads.map ReadEvent.chunk)
      Except.ok (r.frags, r.sentinel)

/-- C5 (amended): every non-2xx response makes the OpenAI-compatible
transport fail with an error carrying the HTTP status and the response's
status text — the error body is only logged, not included — and the call
yields no fragments. -/
theorem c5_non2xx_fails :
    ∀ resp : HttpResponse, resp.isOk = false →
      runOpenAICompatResponse resp =
        Except.error ("API Error: " ++ toString resp.status ++ " " ++
          resp.statusText) ∧
      ∀ out, runOpenAICompatResponse resp ≠ Except.ok out := by
  intro resp h
  refine ⟨by simp [runOpenAICompatResponse, h], ?_⟩
  intro out hk
  simp [runOpenAICompatResponse, h] at hk

/-- The spec's 429 example response, with body text `rate limited`. -/
def resp429 : HttpResponse :=
  ⟨429, "Too Many Requests", some ["rate limited".data]⟩

/-- Witness for C5 at the concrete 429 response. -/
theorem c5_non2xx_fails_witness :
    resp429.isOk = false ∧
    runOpenAICompatResponse resp429 =
      Except.error ("API Error: " ++ toString resp429.status ++ " " ++
        resp429.statusText) :=
  ⟨by decide, (c5_non2xx_fails resp429 (by decide)).1⟩

/-- Counterexample to C5 as stated: on the 429 response with body
`rate limited` the thrown message is `API Error: 429 Too Many Requests` —
it carries the status and status text but does not include the error body
text anywhere. -/
theorem c5_counterexample_body_not_in_error :
    runOpenAICompatResponse resp429 =
      Except.error "API Error: 429 Too Many Requests" ∧
    strIncludes "API Error: 429 Too Many Requests" "rate limited" = false :=
  ⟨by rfl, by decide⟩

/-- C6 (amended): the OpenAI-compatible read loop releases the reader on
every exit path — reads exhausted, `[DONE]` sentinel, and an error thrown
out of a read (which covers the cancellation abort) — thanks to its
`try/finally`; the Google-variant read loop never calls
`reader.releaseLock()` on any path. -/
theorem c6_reader_release :
    ∀ (buf : List Char) (evs : List ReadEvent),
      (compatLoop buf evs).released = true ∧
      (googleLoop evs).released = false := by
  intro buf evs
  constructor
  · induction evs generalizing buf with
    | nil => rfl
    | cons e rest ih =>
      cases e with
      | eof => rfl
      | fail m => rfl
      | chunk data =>
        simp only [compatLoop]
        by_cases hd : (runLines (splitLines (buf ++ data)).1).2 <;>
          simp [hd, ih]
  · cases evs with
    | nil => rfl
    | cons e rest => cases e <;> rfl

/-- Witness for C6: a run that ends in a thrown read error has the compat
reader released, while the Google loop ending normally never released it. -/
theorem c6_reader_release_witness :
    (compatLoop [] [ReadEvent.chunk "data: [D".data,
        ReadEvent.fail "AbortError"]).released = true ∧
    (googleLoop [ReadEvent.eof]).released = false :=
  c6_reader_release [] [ReadEvent.chunk "data: [D".data,
    ReadEvent.fail "AbortError"] |>.imp id
    (fun _ => (c6_reader_release [] [ReadEvent.eof]).2)

/-- Counterexample to C6 as stated: the Google-variant loop completes
normally (reader reports end of stream) without ever invoking
`releaseLock`. -/
theorem c6_counterexample_google_never_releases :
    (googleLoop [ReadEvent.eof]).released = false := rfl

/-- JavaScript strict equality `===` as `Array.prototype.indexOf` uses it on
freshly parsed JSON values: structural on primitives, and false between
distinct arrays/objects (two nodes of a parse tree are never the same
reference). -/
def jsStrictEq : JVal → JVal → Bool
  | JVal.null, JVal.null => true
  | JVal.bool a, JVal.bool b => a == b
  | JVal.num a, JVal.num b => a == b
  | JVal.str a, JVal.str b => a == b
  | _, _ => false

mutual

/-- JavaScript `String(v)` coercion of a JSON value. -/
def jsStringOf : JVal → String
  | JVal.null => "null"
  | JVal.bool true => "true"
  | JVal.bool false => "false"
  | JVal.num n => toString n
  | JVal.str s => s
  | JVal.arr xs => jsArrString xs
  | JVal.obj _ => "[object Object]"

/-- `Array.prototype.toString`: elements joined with commas, null elements
rendered empty. -/
def jsArrString : List JVal → String
  | [] => ""
  | [JVal.null] => ""
  | [x] => jsStringOf x
  | JVal.null :: xs => "," ++ jsArrString xs
  | x :: xs => jsStringOf x ++ "," ++ jsArrString xs

end

/-- `String.prototype.trim`. -/
def jsTrim (s : String) : String := String.mk (trimChars s.data)

/-- `String.prototype.toLowerCase` (ASCII range, which covers the quiz
payloads). -/
def lowerStr (s : String) : String := String.mk (s.data.map Char.toLower)

/-- The regex `^[A-D]$` with the ignore-case flag, returning the positional
index `A..D ↦ 0..3` produced by `charCodeAt(0) - 65` after upper-casing. -/
def letterIndex? (s : String) : Option Nat :=
  match s.data with
  | [c] =>
    if ('A' ≤ c ∧ c ≤ 'D') ∨ ('a' ≤ c ∧ c ≤ 'd') then
      some (c.toUpper.toNat - 65)
    else none
  | _ => none

/-- Correct-answer resolution of `generateQuiz` (lines 500–521): with a
truthy `answer`, try `options.indexOf(answer)` (strict equality), then a
case-insensitive trimmed string comparison, then the single-letter `A`–`D`
positional rule; fall back to index 0 when nothing matched or the answer is
falsy or absent. The letter rule tests the regex against the string coercion
of the answer but then calls `q.answer.toUpperCase()` on the raw value, so a
non-string answer whose coercion matched (such as `["C"]`) throws a runtime
TypeError there; the `Except.error` carries that thrown TypeError. -/
def resolveCorrectIndex (options : List JVal) (answer : Option JVal) :
    Except String Nat :=
  match answer with
  | none => Except.ok 0
  | some a =>
    if jTruthy a then
      match options.findIdx? (fun o => jsStrictEq o a) with
      | some i => Except.ok i
      | none =>
        match options.findIdx? (fun o =>
            lowerStr (jsTrim (jsStringOf o)) == lowerStr (jsTrim (jsStringOf a))) with
        | some i => Except.ok i
        | none =>
          match letterIndex? (jsStringOf a) with
          | some i =>
            match a with
            | JVal.str _ => Except.ok i
            | _ =>
              Except.error "TypeError: q.answer.toUpperCase is not a function"
          | none => Except.ok 0
    else Except.ok 0

/-- One normalized quiz question (the random `id` the source attaches via
`generateId()` is outside the deterministic core and not modelled). -/
structure QuizQuestion where
  question : JVal
  options : List JVal
  correctAnswer : Nat
  explanation : JVal

/-- The fallback options list used when `q.options` is not an array. -/
def defaultOptions : List JVal :=
  [JVal.str "Yes", JVal.str "No", JVal.str "Maybe", JVal.str "Unsure"]

/-- Per-question normalization of `generateQuiz` (lines 498–530): non-array
options are replaced by the fallback list, the answer index is resolved, and
missing or falsy `question`/`explanation` fields get placeholder strings.
The callback begins with the property access `q.options`, which on a `null`
raw question throws a runtime TypeError (property access on any other JSON
value yields `undefined` without throwing); that thrown error, like one from
the answer resolution, is propagated as `Except.error`. -/
def mkQuizQuestion (q : JVal) : Except String QuizQuestion :=
  match q with
  | JVal.null =>
    Except.error "TypeError: Cannot read properties of null (reading 'options')"
  | _ =>
    let options := match jGet q "options" with
      | some (JVal.arr xs) => xs
      | _ => defaultOptions
    match resolveCorrectIndex options (jGet q "answer") with
    | Except.error e => Except.error e
    | Except.ok idx =>
      Except.ok
        ⟨(match jGet q "question" with
           | some qv => if jTruthy qv then qv else JVal.str "Untitled Question"
           | none => JVal.str "Untitled Question"),
         options, idx,
         (match jGet q "explanation" with
           | some e => if jTruthy e then e else JVal.str "No explanation provided."
           | none => JVal.str "No explanation provided.")⟩

/-- Top-level shape normalization of `generateQuiz` (lines 481–492): a bare
array, a truthy value whose `questions` property is an array, or a truthy
value whose `quiz` property is an array; anything else is the structure
error. -/
def extractQuestionsArray (parsed : JVal) : Except String (List JVal) :=
  match parsed with
  | JVal.arr xs => Except.ok xs
  | _ =>
    if jTruthy parsed then
      match jGet parsed "questions" with
      | some (JVal.arr xs) => Except.ok xs
      | _ =>
        match jGet parsed "quiz" with
        | some (JVal.arr xs) => Except.ok xs
        | _ =>
          Except.error "AI returned invalid quiz structure (missing questions array)"
    else Except.error "AI returned invalid quiz structure (missing questions array)"

/-- `questionsArray.map(...)` with exception propagation: the callback runs
left to right and the first thrown error aborts the whole map, so no partial
question list is ever produced. -/
def mapQuestions : List JVal → Except String (List QuizQuestion)
  | [] => Except.ok []
  | q :: qs =>
    match mkQuizQuestion q with
    | Except.error e => Except.error e
    | Except.ok question =>
      match mapQuestions qs with
      | Except.error e => Except.error e
      | Except.ok rest => Except.ok (question :: rest)

/-- Parsing of the provider's quiz text (lines 473–530): `JSON.parse`
failure, shape normalization, the empty-array check, and the per-question
mapping; any error — including a TypeError thrown inside the map callback —
fails the whole call with no partial quiz. -/
def parseQuizResponse (textResponse : String) : Except String (List QuizQuestion) :=
  match jsonParse textResponse.data with
  | none => Except.error "Failed to parse AI response as JSON"
  | some parsed =>
    match extractQuestionsArray parsed with
    | Except.error e => Except.error e
    | Except.ok qs =>
      if qs.length = 0 then Except.error "No questions generated."
      else mapQuestions qs

/-- The inner `quiz`-property step of the shape normalization: an array
property succeeds, anything else is the structure error. -/
def quizArrayOrError (o : Option JVal) : Except String (List JVal) :=
  match o with
  | some (JVal.arr xs) => Except.ok xs
  | _ =>
    Except.error "AI returned invalid quiz structure (missing questions array)"

/-- Helper: the quiz-property step falls through to the structure error when
the property is not an array. -/
theorem quizArrayOrError_not_arr (o : Option JVal)
    (h : ∀ ys : List JVal, o ≠ some (JVal.arr ys)) :
    quizArrayOrError o =
      Except.error "AI returned invalid quiz structure (missing questions array)" := by
  cases o with
  | none => rfl
  | some v => cases v <;> first | rfl | exact absurd rfl (h _)

/-- Helper: on an object whose `questions` property is an array,
normalization returns that array. -/
theorem extract_obj_questions (fs : List (String × JVal)) (xs : List JVal)
    (h : jGet (JVal.obj fs) "questions" = some (JVal.arr xs)) :
    extractQuestionsArray (JVal.obj fs) = Except.ok xs := by
  show (match jGet (JVal.obj fs) "questions" with
        | some (JVal.arr xs) => Except.ok xs
        | _ =>
          match jGet (JVal.obj fs) "quiz" with
          | some (JVal.arr xs) => Except.ok xs
          | _ =>
            Except.error "AI returned invalid quiz structure (missing questions array)") =
      Except.ok xs
  rw [h]

/-- Helper: on an object whose `questions` property is not an array,
normalization reduces to the `quiz`-property match. -/
theorem extract_obj_quiz (fs : List (String × JVal))
    (hq : ∀ ys : List JVal, jGet (JVal.obj fs) "questions" ≠ some (JVal.arr ys)) :
    extractQuestionsArray (JVal.obj fs) =
      quizArrayOrError (jGet (JVal.obj fs) "quiz") := by
  show (match jGet (JVal.obj fs) "questions" with
        | some (JVal.arr xs) => Except.ok xs
        | _ =>
          match jGet (JVal.obj fs) "quiz" with
          | some (JVal.arr xs) => Except.ok xs
          | _ =>
            Except.error "AI returned invalid quiz structure (missing questions array)") = _
  rcases hqs : jGet (JVal.obj fs) "questions" with _ | v
  · rfl
  · cases v <;> first | rfl | exact absurd hqs (hq _)

/-- The spec's mocked provider quiz response for C8. -/
def c8QuizText : String :=
  "\x7b\"quiz\":[\x7b\"question\":\"Q1\",\"options\":[\"A\",\"B\",\"C\",\"D\"],\"answer\":\"B\",\"explanation\":\"x\"\x7d]\x7d"

/-- A raw question whose answer `C` matches no option exactly or
case-insensitively. -/
def c8LetterQuestion : JVal :=
  JVal.obj [("question", JVal.str "Q2"),
    ("options", JVal.arr [JVal.str "Paris", JVal.str "London",
      JVal.str "Rome", JVal.str "Berlin"]),
    ("answer", JVal.str "C"), ("explanation", JVal.str "e")]

/-- The options list of `c8LetterQuestion`. -/
def c8LetterOptions : List JVal :=
  [JVal.str "Paris", JVal.str "London", JVal.str "Rome", JVal.str "Berlin"]

/-- C8: the correct-answer index is resolved by exact match first (witnessed
on the mocked `quiz` response, where answer `B` yields index 1), then by the
letter-positional rule when no exact or case-insensitive match exists
(answer `C` over four city names yields index 2), an exact match always wins
when present, and when all three matchers fail the index defaults to 0 while
the question is still produced. -/
theorem c8_answer_index_resolution :
    parseQuizResponse c8QuizText =
      Except.ok [⟨JVal.str "Q1",
        [JVal.str "A", JVal.str "B", JVal.str "C", JVal.str "D"], 1,
        JVal.str "x"⟩] ∧
    (c8LetterOptions.findIdx?
        (fun o => jsStrictEq o (JVal.str "C")) = none ∧
      c8LetterOptions.findIdx? (fun o =>
          lowerStr (jsTrim (jsStringOf o)) ==
            lowerStr (jsTrim (jsStringOf (JVal.str "C")))) = none ∧
      mkQuizQuestion c8LetterQuestion =
        Except.ok ⟨JVal.str "Q2", c8LetterOptions, 2, JVal.str "e"⟩) ∧
    (∀ (options : List JVal) (a : JVal) (i : Nat), jTruthy a = true →
      options.findIdx? (fun o => jsStrictEq o a) = some i →
      resolveCorrectIndex options (some a) = Except.ok i) ∧
    (∀ (options : List JVal) (a : JVal),
      options.findIdx? (fun o => jsStrictEq o a) = none →
      options.findIdx? (fun o =>
        lowerStr (jsTrim (jsStringOf o)) ==
          lowerStr (jsTrim (jsStringOf a))) = none →
      letterIndex? (jsStringOf a) = none →
      resolveCorrectIndex options (some a) = Except.ok 0) := by
  refine ⟨by rfl, ⟨by rfl, by rfl, by rfl⟩, ?_, ?_⟩
  · intro options a i ht hidx
    simp [resolveCorrectIndex, ht, hidx]
  · intro options a h1 h2 h3
    simp [resolveCorrectIndex, h1, h2, h3]

/-- Witness for C8: the exact-match rule applied at answer "B" over options
A–D gives index 1, and the all-fail default applied at answer "Z" over the
same options gives index 0. -/
theorem c8_answer_index_resolution_witness :
    resolveCorrectIndex [JVal.str "A", JVal.str "B", JVal.str "C",
      JVal.str "D"] (some (JVal.str "B")) = Except.ok 1 ∧
    resolveCorrectIndex [JVal.str "A", JVal.str "B", JVal.str "C",
      JVal.str "D"] (some (JVal.str "Z")) = Except.ok 0 :=
  ⟨c8_answer_index_resolution.2.2.1
      [JVal.str "A", JVal.str "B", JVal.str "C", JVal.str "D"]
      (JVal.str "B") 1 (by decide) (by rfl),
   c8_answer_index_resolution.2.2.2
      [JVal.str "A", JVal.str "B", JVal.str "C", JVal.str "D"]
      (JVal.str "Z") (by rfl) (by rfl) (by rfl)⟩

/-- Length of a successful exception-propagating map: one normalized
question per raw question. -/
theorem mapQuestions_ok_length :
    ∀ (xs : List JVal) (out : List QuizQuestion),
      mapQuestions xs = Except.ok out → out.length = xs.length := by
  intro xs
  induction xs with
  | nil =>
    intro out h
    cases h
    rfl
  | cons q qs ih =>
    intro out h
    simp only [mapQuestions] at h
    cases hq : mkQuizQuestion q <;> rw [hq] at h
    · simp at h
    · cases hr : mapQuestions qs <;> rw [hr] at h <;> simp at h
      rw [← h]
      simp [ih _ hr]

/-- C9: `generateQuiz` accepts exactly three top-level shapes — a bare
array, an object with a `questions` array, an object with a `quiz` array
(checked in that order) — normalizing all three to one question array; any
other shape fails with the structure error, an empty normalized array fails
the whole call with `No questions generated.`, and a nonempty one runs the
exception-propagating per-question map, whose outcome is the call's outcome:
either the whole call fails (also when a question throws, as a `null` raw
question does) or it returns exactly one normalized question per raw
question — never a partial quiz. -/
theorem c9_quiz_shape_normalization :
    (∀ xs : List JVal, extractQuestionsArray (JVal.arr xs) = Except.ok xs) ∧
    (∀ (p : JVal) (xs : List JVal),
      jGet p "questions" = some (JVal.arr xs) →
      extractQuestionsArray p = Except.ok xs) ∧
    (∀ (p : JVal) (xs : List JVal),
      jGet p "quiz" = some (JVal.arr xs) →
      (∀ ys : List JVal, jGet p "questions" ≠ some (JVal.arr ys)) →
      extractQuestionsArray p = Except.ok xs) ∧
    (∀ p : JVal, (∀ ys : List JVal, p ≠ JVal.arr ys) →
      (∀ ys : List JVal, jGet p "questions" ≠ some (JVal.arr ys)) →
      (∀ ys : List JVal, jGet p "quiz" ≠ some (JVal.arr ys)) →
      extractQuestionsArray p =
        Except.error "AI returned invalid quiz structure (missing questions array)") ∧
    (∀ (t : String) (parsed : JVal), jsonParse t.data = some parsed →
      extractQuestionsArray parsed = Except.ok [] →
      parseQuizResponse t = Except.error "No questions generated.") ∧
    (∀ (t : String) (parsed : JVal) (xs : List JVal),
      jsonParse t.data = some parsed →
      extractQuestionsArray parsed = Except.ok xs → xs ≠ [] →
      parseQuizResponse t = mapQuestions xs) ∧
    (∀ (t : String) (parsed : JVal) (xs : List JVal)
        (out : List QuizQuestion),
      jsonParse t.data = some parsed →
      extractQuestionsArray parsed = Except.ok xs →
      parseQuizResponse t = Except.ok out →
      out.length = xs.length) := by
  refine ⟨fun xs => rfl, ?_, ?_, ?_, ?_, ?_, ?_⟩
  · intro p xs h
    cases p
    case obj fs => exact extract_obj_questions fs xs h
    all_goals simp [jGet] at h
  · intro p xs h hq
    cases p
    case obj fs =>
      rw [extract_obj_quiz fs hq, h]
      rfl
    all_goals simp [jGet] at h
  · intro p hp hq hz
    cases p
    case obj fs =>
      rw [extract_obj_quiz fs hq]
      exact quizArrayOrError_not_arr _ hz
    case arr xs => exact absurd rfl (hp xs)
    case null => rfl
    case bool b => cases b <;> rfl
    case num n => simp [extractQuestionsArray, jGet]
    case str s => simp [extractQuestionsArray, jGet]
  · intro t parsed hp he
    simp [parseQuizResponse, hp, he]
  · intro t parsed xs hp he hne
    simp [parseQuizResponse, hp, he, hne]
  · intro t parsed xs out hp he hok
    simp only [parseQuizResponse, hp, he] at hok
    by_cases hl : xs.length = 0
    · rw [if_pos hl] at hok
      exact absurd hok (by simp)
    · rw [if_neg hl] at hok
      exact mapQuestions_ok_length xs out hok

/-- Witness for C9: the bare-array, `questions`-object and `quiz`-object
shapes all normalize, an unrecognized shape fails with the structure error,
the empty bare array fails the full call, and the nonempty array `[null]`
fails the whole call through the thrown TypeError of its map callback. -/
theorem c9_quiz_shape_normalization_witness :
    extractQuestionsArray (JVal.arr [JVal.str "q"]) =
      Except.ok [JVal.str "q"] ∧
    extractQuestionsArray (JVal.obj [("questions", JVal.arr [JVal.str "q"])]) =
      Except.ok [JVal.str "q"] ∧
    extractQuestionsArray (JVal.obj [("quiz", JVal.arr [JVal.str "q"])]) =
      Except.ok [JVal.str "q"] ∧
    extractQuestionsArray (JVal.obj [("data", JVal.arr [JVal.str "q"])]) =
      Except.error "AI returned invalid quiz structure (missing questions array)" ∧
    parseQuizResponse "[]" = Except.error "No questions generated." ∧
    parseQuizResponse "[null]" =
      Except.error "TypeError: Cannot read properties of null (reading 'options')" :=
  ⟨c9_quiz_shape_normalization.1 [JVal.str "q"],
   c9_quiz_shape_normalization.2.1 (JVal.obj [("questions", JVal.arr [JVal.str "q"])])
     [JVal.str "q"] (by rfl),
   c9_quiz_shape_normalization.2.2.1 (JVal.obj [("quiz", JVal.arr [JVal.str "q"])])
     [JVal.str "q"] (by rfl)
     (by intro ys h; simp [jGet] at h),
   c9_quiz_shape_normalization.2.2.2.1 (JVal.obj [("data", JVal.arr [JVal.str "q"])])
     (by intro ys h; exact absurd h (by simp))
     (by intro ys h; simp [jGet] at h)
     (by intro ys h; simp [jGet] at h),
   c9_quiz_shape_normalization.2.2.2.2.1 "[]" (JVal.arr []) (by rfl) (by rfl),
   (c9_quiz_shape_normalization.2.2.2.2.2.1 "[null]" (JVal.arr [JVal.null])
     [JVal.null] (by rfl) (by rfl) (by simp)).trans (by rfl)⟩
